import Mathlib

/-!
Shallow embedding of the offline-first task sync service
(`src/services/syncService.ts`, `src/db/database.ts`, `src/services/taskService.ts`)
and proofs about its synchronization engine.

Modelling conventions:
* Task and queue-item ids are `Nat` (the source uses UUID strings; only
  equality of ids matters to the code under study).
* Timestamps are `Int` (the source compares `Date` objects, which compare by
  their numeric epoch value; `toISOString` round-trips preserve the order).
* The Task Store is a list of tasks together with a fault-injection table
  `saveFailures` that makes `save` throw for chosen ids, modelling the
  SQLite layer raising an exception mid-item (the only effectful call inside
  the reconciler's per-item `try` block that can fail).
* The Sync Queue Store is the FIFO sequence that
  `SELECT * FROM sync_queue ORDER BY created_at ASC` returns; `DELETE FROM
  sync_queue WHERE id = ?` is a filter on that sequence.
* The transport (`axios.post`) is a function from the request to
  `Except String BatchSyncResponse`: `Except.error` is a thrown transport
  failure, `Except.ok` a structurally valid decoded response.
* `sync` additionally returns the request it sent (`none` when the queue was
  empty and nothing was sent), so the wire interaction is observable.
-/

namespace TaskSync

/-- The `sync_status` field of a task: `'pending' | 'synced' | 'error'`. -/
inductive SyncStatus where
  | pending
  | synced
  | error
deriving Repr, DecidableEq

/-- A task row (interface `Task` in `src/types`, columns of table `tasks`). -/
structure Task where
  id : Nat
  title : String
  description : Option String := none
  completed : Bool
  is_deleted : Bool
  created_at : Int
  updated_at : Int
  sync_status : SyncStatus
  server_id : Option Nat := none
  last_synced_at : Option Int := none
deriving Repr, DecidableEq

/-- A `Partial<Task>`: every field optionally present.  For fields whose type
is itself optional the outer `Option` is presence in the partial object and
the inner one is the nullable value. -/
structure TaskData where
  id : Option Nat := none
  title : Option String := none
  description : Option (Option String) := none
  completed : Option Bool := none
  is_deleted : Option Bool := none
  created_at : Option Int := none
  updated_at : Option Int := none
  sync_status : Option SyncStatus := none
  server_id : Option (Option Nat) := none
  last_synced_at : Option (Option Int) := none
deriving Repr, DecidableEq

/-- The `operation` field of a sync-queue item. -/
inductive SyncOperation where
  | create
  | update
  | delete
deriving Repr, DecidableEq

/-- A row of the `sync_queue` table (interface `SyncQueueItem`). -/
structure SyncQueueItem where
  id : Nat
  task_id : Nat
  operation : SyncOperation
  data : TaskData
  created_at : Int
  retry_count : Nat := 0
  error_message : Option String := none
deriving Repr, DecidableEq

/-- The body of `POST /sync/batch` (interface `BatchSyncRequest`). -/
structure BatchSyncRequest where
  items : List SyncQueueItem
  client_timestamp : Int
deriving Repr, DecidableEq

/-- The per-item verdict `status` of the batch response. -/
inductive VerdictStatus where
  | success
  | conflict
  | error
deriving Repr, DecidableEq

/-- One entry of `processed_items` in the batch response. -/
structure ProcessedItem where
  client_id : Nat
  server_id : Nat
  status : VerdictStatus
  resolved_data : Option Task := none
  error : Option String := none
deriving Repr, DecidableEq

/-- The response of `POST /sync/batch` (interface `BatchSyncResponse`, plus
the `server_changes`/`server_timestamp` fields `handleBatchSync` adds). -/
structure BatchSyncResponse where
  processed_items : List ProcessedItem
  server_changes : List Task := []
  server_timestamp : Int := 0
deriving Repr, DecidableEq

/-- One entry of `SyncResult.errors` (the source stores `task_id` as a plain
string there, e.g. the literal `'N/A'`). -/
structure SyncError where
  task_id : String
  operation : String
  error : String
  timestamp : Int
deriving Repr, DecidableEq

/-- The result of the client-side `sync()` orchestration. -/
structure SyncResult where
  success : Bool
  synced_items : Nat
  failed_items : Nat
  errors : List SyncError
deriving Repr, DecidableEq

/-- State of the Task Store.  `tasks` are the rows of the `tasks` table;
`saveFailures` is fault injection: `save` throws the given message for the
listed task ids, modelling an SQLite error surfacing inside the per-item
`try` block of `handleBatchSync`. -/
structure DbState where
  tasks : List Task
  saveFailures : List (Nat × String) := []
deriving Repr, DecidableEq

/-- `Database.findById`: `SELECT * FROM tasks WHERE id = ?`. -/
def findById (s : DbState) (id : Nat) : Option Task :=
  s.tasks.find? (fun t => t.id = id)

/-- Upsert by primary key, the effect of `INSERT OR REPLACE INTO tasks`. -/
def upsertTask (tasks : List Task) (t : Task) : List Task :=
  if tasks.any (fun u => u.id = t.id) then
    tasks.map (fun u => if u.id = t.id then t else u)
  else
    tasks ++ [t]

/-- `Database.save`: upsert, or a thrown SQLite error for a poisoned id. -/
def save (s : DbState) (t : Task) : Except String DbState :=
  match s.saveFailures.find? (fun p => p.1 = t.id) with
  | some p => Except.error p.2
  | none => Except.ok { s with tasks := upsertTask s.tasks t }

/-- `Database.findTasksModifiedSince`:
`SELECT * FROM tasks WHERE updated_at > ?`. -/
def findTasksModifiedSince (s : DbState) (timestamp : Int) : List Task :=
  s.tasks.filter (fun t => timestamp < t.updated_at)

/-- The task materialized by the `create`-on-absent branch of
`handleBatchSync` (`data.title || 'New Task (Client Sync)'` is the JS `||`,
for which the empty string is falsy; `new Date()` defaults are the call-time
clock `now`). -/
def newTaskFromData (task_id : Nat) (data : TaskData) (now : Int) : Task :=
  { id := task_id
    title := match data.title with
      | some t => if t = "" then "New Task (Client Sync)" else t
      | none => "New Task (Client Sync)"
    description := data.description.getD none
    completed := data.completed.getD false
    is_deleted := data.is_deleted.getD false
    created_at := data.created_at.getD now
    updated_at := data.updated_at.getD now
    sync_status := SyncStatus.synced
    server_id := some task_id
    last_synced_at := none }

/-- The merged task of the LWW client-wins branch:
`{ ...serverTask, ...data, id, sync_status: 'synced', updated_at }` —
each field submitted in `data` overrides the server copy, then `id`,
`sync_status` and `updated_at` are forced. -/
def mergeTask (serverTask : Task) (data : TaskData) (clientUpdatedDate : Int) : Task :=
  { id := serverTask.id
    title := data.title.getD serverTask.title
    description := data.description.getD serverTask.description
    completed := data.completed.getD serverTask.completed
    is_deleted := data.is_deleted.getD serverTask.is_deleted
    created_at := data.created_at.getD serverTask.created_at
    updated_at := clientUpdatedDate
    sync_status := SyncStatus.synced
    server_id := data.server_id.getD serverTask.server_id
    last_synced_at := data.last_synced_at.getD serverTask.last_synced_at }

/-- The body of the per-item `try` block of `handleBatchSync` (lines
124–177): look the task up, create / accept / merge / conflict, with `save`
the only call that can throw. -/
def processItemCore (s : DbState) (now : Int) (item : SyncQueueItem) :
    Except String (ProcessedItem × DbState) :=
  let task_id := item.task_id
  match findById s task_id with
  | none =>
    if item.operation = SyncOperation.create then
      match save s (newTaskFromData task_id item.data now) with
      | Except.error e => Except.error e
      | Except.ok s' =>
        Except.ok ({ client_id := task_id, server_id := task_id,
                     status := VerdictStatus.success }, s')
    else
      -- DELETE or UPDATE on a non-existent task is reported as success
      Except.ok ({ client_id := task_id, server_id := task_id,
                   status := VerdictStatus.success }, s)
  | some serverTask =>
    let clientUpdatedDate := item.data.updated_at.getD serverTask.updated_at
    if serverTask.updated_at ≤ clientUpdatedDate then
      match save s (mergeTask serverTask item.data clientUpdatedDate) with
      | Except.error e => Except.error e
      | Except.ok s' =>
        Except.ok ({ client_id := task_id, server_id := serverTask.id,
                     status := VerdictStatus.success }, s')
    else
      Except.ok ({ client_id := task_id, server_id := serverTask.id,
                   status := VerdictStatus.conflict,
                   resolved_data := some serverTask }, s)

/-- One loop iteration of `handleBatchSync` with its `catch`: a thrown
exception becomes an `error` verdict carrying the message, and (since the
failed `save` mutated nothing) leaves the store as it was. -/
def processItem (s : DbState) (now : Int) (item : SyncQueueItem) :
    ProcessedItem × DbState :=
  match processItemCore s now item with
  | Except.ok r => r
  | Except.error e =>
    ({ client_id := item.task_id, server_id := item.task_id,
       status := VerdictStatus.error, error := some e }, s)

/-- The `for (const item of request.items)` loop: strictly sequential, each
item reading the store state left by its predecessors. -/
def processItems (s : DbState) (now : Int) :
    List SyncQueueItem → List ProcessedItem × DbState
  | [] => ([], s)
  | item :: rest =>
    let r := processItem s now item
    let rec' := processItems r.2 now rest
    (r.1 :: rec'.1, rec'.2)

/-- `SyncService.handleBatchSync`: process every item, then compute
`server_changes` from the resulting store and stamp the response with the
call-time clock.  Returns the response together with the final store. -/
def handleBatchSync (s : DbState) (now : Int) (request : BatchSyncRequest) :
    BatchSyncResponse × DbState :=
  let processed := processItems s now request.items
  ({ processed_items := processed.1
     server_changes := findTasksModifiedSince processed.2 request.client_timestamp
     server_timestamp := now }, processed.2)

/-- `Database.getPendingSyncItems`: the queue store is modelled as the FIFO
sequence `SELECT * FROM sync_queue ORDER BY created_at ASC` returns. -/
def getPendingSyncItems (queue : List SyncQueueItem) : List SyncQueueItem :=
  queue

/-- `Database.removeSyncQueueItem`: `DELETE FROM sync_queue WHERE id = ?`. -/
def removeSyncQueueItem (queue : List SyncQueueItem) (id : Nat) :
    List SyncQueueItem :=
  queue.filter (fun q => q.id ≠ id)

/-- The request `sync()` builds (lines 64–67): the pending items plus
`client_timestamp: new Date()`, the call-time clock. -/
def buildBatchRequest (pendingItems : List SyncQueueItem) (now : Int) :
    BatchSyncRequest :=
  { items := pendingItems, client_timestamp := now }

/-- The verdict-interpretation loop of `sync()` (lines 78–87): for each
processed item, `success`/`conflict` removes the queue row whose id equals
the verdict's `client_id` and counts as synced; anything else only counts as
failed.  Returns the queue plus the (synced, failed) tallies. -/
def applyProcessedItems (queue : List SyncQueueItem) :
    List ProcessedItem → List SyncQueueItem × Nat × Nat
  | [] => (queue, 0, 0)
  | v :: rest =>
    if v.status = VerdictStatus.success ∨ v.status = VerdictStatus.conflict then
      let r := applyProcessedItems (removeSyncQueueItem queue v.client_id) rest
      (r.1, r.2.1 + 1, r.2.2)
    else
      let r := applyProcessedItems queue rest
      (r.1, r.2.1, r.2.2 + 1)

/-- `SyncService.sync()`: drain the queue, send one batch, interpret the
verdicts or report wholesale failure.  Returns the result, the queue store
after the call, and the request that was sent (`none` when none was). -/
def sync (queue : List SyncQueueItem) (now : Int)
    (transport : BatchSyncRequest → Except String BatchSyncResponse) :
    SyncResult × List SyncQueueItem × Option BatchSyncRequest :=
  let pendingItems := getPendingSyncItems queue
  let totalPending := pendingItems.length
  if totalPending = 0 then
    ({ success := true, synced_items := 0, failed_items := 0, errors := [] },
     queue, none)
  else
    let batchRequest := buildBatchRequest pendingItems now
    match transport batchRequest with
    | Except.ok batchResponse =>
      let r := applyProcessedItems queue batchResponse.processed_items
      ({ success := r.2.2 = 0, synced_items := r.2.1, failed_items := r.2.2,
         errors := [] }, r.1, some batchRequest)
    | Except.error _ =>
      ({ success := false, synced_items := 0, failed_items := totalPending,
         errors := [{ task_id := "N/A", operation := "sync",
                      error := "Network or Server Error", timestamp := now }] },
       queue, some batchRequest)

/-! ## Concrete fixtures used by witnesses and counterexamples -/

def c1task : Task :=
  { id := 2, title := "old", completed := false, is_deleted := false,
    created_at := 0, updated_at := 5, sync_status := SyncStatus.pending }

def c1item : SyncQueueItem :=
  { id := 1, task_id := 2, operation := SyncOperation.update,
    data := { title := some "new", updated_at := some 6 }, created_at := 0 }

def c1db : DbState := { tasks := [c1task] }

def c2item : SyncQueueItem :=
  { id := 1, task_id := 2, operation := SyncOperation.update,
    data := { title := some "stale", updated_at := some 3 }, created_at := 0 }

def c9item : SyncQueueItem :=
  { id := 6, task_id := 99, operation := SyncOperation.delete,
    data := { is_deleted := some true }, created_at := 0 }

def c6db : DbState := { tasks := [], saveFailures := [(5, "db failure")] }

def c6item : SyncQueueItem :=
  { id := 3, task_id := 5, operation := SyncOperation.create, data := {}, created_at := 0 }

def c6item2 : SyncQueueItem :=
  { id := 4, task_id := 7, operation := SyncOperation.create, data := {}, created_at := 1 }

def c3q1 : SyncQueueItem :=
  { id := 1, task_id := 11, operation := SyncOperation.update, data := {}, created_at := 0 }

def c3q2 : SyncQueueItem :=
  { id := 2, task_id := 12, operation := SyncOperation.update, data := {}, created_at := 1 }

def c3q3 : SyncQueueItem :=
  { id := 3, task_id := 13, operation := SyncOperation.update, data := {}, created_at := 2 }

/-- The `error` verdict of the middle item of the three-item scenario. -/
def c3v2 : ProcessedItem :=
  { client_id := 2, server_id := 12, status := VerdictStatus.error,
    error := some "boom" }

/-- A structurally valid response correlating to `[c3q1, c3q2, c3q3]` by
queue-item id, with one `error` verdict in the middle. -/
def c3resp : BatchSyncResponse :=
  { processed_items :=
      [{ client_id := 1, server_id := 11, status := VerdictStatus.success },
       c3v2,
       { client_id := 3, server_id := 13, status := VerdictStatus.conflict }] }

def c3transport : BatchSyncRequest → Except String BatchSyncResponse :=
  fun _ => Except.ok c3resp

def c4transport : BatchSyncRequest → Except String BatchSyncResponse :=
  fun _ => Except.error "ECONNREFUSED"

def c5item : SyncQueueItem :=
  { id := 1, task_id := 2, operation := SyncOperation.update, data := {}, created_at := 0 }

def c8item1 : SyncQueueItem :=
  { id := 11, task_id := 21, operation := SyncOperation.create, data := {}, created_at := 0 }

def c8item2 : SyncQueueItem :=
  { id := 12, task_id := 22, operation := SyncOperation.create, data := {}, created_at := 1 }

/-- A fully successful response whose `server_timestamp` high-water mark is
5; a spec-conforming client would store 5 and send it as the next
`client_timestamp`. -/
def c8resp : BatchSyncResponse :=
  { processed_items :=
      [{ client_id := 11, server_id := 21, status := VerdictStatus.success }],
    server_timestamp := 5 }

def c8transport : BatchSyncRequest → Except String BatchSyncResponse :=
  fun _ => Except.ok c8resp

/-! ## Server-side reconciliation claims -/

/-- C1: for a batch item whose task exists in the store and whose incoming
`updated_at` (falling back to the existing task's when the data carries
none) is ≥ the existing task's, `handleBatchSync` persists the merge of the
submitted fields over the existing task — id preserved, `sync_status`
`synced`, `updated_at` the incoming timestamp — and reports `success`. -/
theorem c1_lww_incoming_wins (s : DbState) (now : Int) (item : SyncQueueItem)
    (serverTask : Task)
    (hfind : findById s item.task_id = some serverTask)
    (hok : s.saveFailures = [])
    (hge : serverTask.updated_at ≤ item.data.updated_at.getD serverTask.updated_at) :
    processItem s now item =
      ({ client_id := item.task_id, server_id := serverTask.id,
         status := VerdictStatus.success },
       { tasks := upsertTask s.tasks
           (mergeTask serverTask item.data (item.data.updated_at.getD serverTask.updated_at)),
         saveFailures := [] }) ∧
    (mergeTask serverTask item.data (item.data.updated_at.getD serverTask.updated_at)).id
        = serverTask.id ∧
    (mergeTask serverTask item.data (item.data.updated_at.getD serverTask.updated_at)).sync_status
        = SyncStatus.synced ∧
    (mergeTask serverTask item.data (item.data.updated_at.getD serverTask.updated_at)).updated_at
        = item.data.updated_at.getD serverTask.updated_at := by
  refine ⟨?_, rfl, rfl, rfl⟩
  simp [processItem, processItemCore, hfind, hge, save, hok]

/-- C1 witness: the hypotheses hold and the theorem applies at a concrete
newer incoming update. -/
theorem c1_lww_incoming_wins_witness :
    findById c1db c1item.task_id = some c1task ∧
    c1db.saveFailures = [] ∧
    c1task.updated_at ≤ c1item.data.updated_at.getD c1task.updated_at ∧
    processItem c1db 9 c1item =
      ({ client_id := c1item.task_id, server_id := c1task.id,
         status := VerdictStatus.success },
       { tasks := upsertTask c1db.tasks
           (mergeTask c1task c1item.data (c1item.data.updated_at.getD c1task.updated_at)),
         saveFailures := [] }) :=
  ⟨by decide, by decide, by decide,
   (c1_lww_incoming_wins c1db 9 c1item c1task (by decide) (by decide) (by decide)).1⟩

/-- C2: for a batch item whose task exists in the store and whose incoming
`updated_at` is strictly older than the existing task's, `handleBatchSync`
mutates nothing and reports `conflict` with `resolved_data` equal to the
pre-existing server copy. -/
theorem c2_lww_server_wins (s : DbState) (now : Int) (item : SyncQueueItem)
    (serverTask : Task)
    (hfind : findById s item.task_id = some serverTask)
    (hlt : item.data.updated_at.getD serverTask.updated_at < serverTask.updated_at) :
    processItem s now item =
      ({ client_id := item.task_id, server_id := serverTask.id,
         status := VerdictStatus.conflict, resolved_data := some serverTask }, s) := by
  simp [processItem, processItemCore, hfind, hlt.not_le]

/-- C2 witness: the hypotheses hold and the theorem applies at a concrete
stale incoming update. -/
theorem c2_lww_server_wins_witness :
    findById c1db c2item.task_id = some c1task ∧
    c2item.data.updated_at.getD c1task.updated_at < c1task.updated_at ∧
    processItem c1db 9 c2item =
      ({ client_id := c2item.task_id, server_id := c1task.id,
         status := VerdictStatus.conflict, resolved_data := some c1task }, c1db) :=
  ⟨by decide, by decide,
   c2_lww_server_wins c1db 9 c2item c1task (by decide) (by decide)⟩

/-- C9: for a batch item whose task is absent from the store and whose
operation is `update` or `delete`, `handleBatchSync` creates no task,
mutates nothing and reports `success`. -/
theorem c9_absent_update_delete (s : DbState) (now : Int) (item : SyncQueueItem)
    (hfind : findById s item.task_id = none)
    (hop : item.operation = SyncOperation.update ∨ item.operation = SyncOperation.delete) :
    processItem s now item =
      ({ client_id := item.task_id, server_id := item.task_id,
         status := VerdictStatus.success }, s) := by
  have hne : item.operation ≠ SyncOperation.create := by
    rcases hop with h | h <;> simp [h]
  simp [processItem, processItemCore, hfind, hne]

/-- C9 witness: the hypotheses hold and the theorem applies for a delete of
an absent task. -/
theorem c9_absent_update_delete_witness :
    findById c1db c9item.task_id = none ∧
    (c9item.operation = SyncOperation.update ∨ c9item.operation = SyncOperation.delete) ∧
    processItem c1db 9 c9item =
      ({ client_id := c9item.task_id, server_id := c9item.task_id,
         status := VerdictStatus.success }, c1db) :=
  ⟨by decide, by decide,
   c9_absent_update_delete c1db 9 c9item (by decide) (by decide)⟩

/-- C6: an exception raised while processing one batch item is caught for
that item alone — it becomes an `error` verdict carrying the message, the
store is left as it was, and every subsequent item of the batch is processed
exactly as it would have been. -/
theorem c6_per_item_isolation (s : DbState) (now : Int) (item : SyncQueueItem)
    (msg : String) (rest : List SyncQueueItem)
    (h : processItemCore s now item = Except.error msg) :
    processItems s now (item :: rest) =
      ({ client_id := item.task_id, server_id := item.task_id,
         status := VerdictStatus.error, error := some msg }
           :: (processItems s now rest).1,
       (processItems s now rest).2) := by
  simp [processItems, processItem, h]

/-- C6 witness: a poisoned save makes the first item throw; its verdict is
`error` with the message and the second item is still processed. -/
theorem c6_per_item_isolation_witness :
    processItemCore c6db 0 c6item = Except.error "db failure" ∧
    processItems c6db 0 (c6item :: [c6item2]) =
      ({ client_id := c6item.task_id, server_id := c6item.task_id,
         status := VerdictStatus.error, error := some "db failure" }
           :: (processItems c6db 0 [c6item2]).1,
       (processItems c6db 0 [c6item2]).2) :=
  ⟨rfl, c6_per_item_isolation c6db 0 c6item "db failure" [c6item2] rfl⟩

/-- C7: `server_changes` of a `handleBatchSync` response holds exactly the
tasks of the store as it stands after the per-item processing of the same
call whose `updated_at` is strictly greater than the request's
`client_timestamp`. -/
theorem c7_server_changes (s : DbState) (now : Int) (req : BatchSyncRequest)
    (t : Task) :
    t ∈ (handleBatchSync s now req).1.server_changes ↔
      t ∈ (processItems s now req.items).2.tasks ∧
        req.client_timestamp < t.updated_at := by
  simp [handleBatchSync, findTasksModifiedSince, List.mem_filter]

/-! ## Client-side orchestration: helper lemmas -/

theorem status_error_of_not_resolved (v : ProcessedItem)
    (hs : ¬(v.status = VerdictStatus.success ∨ v.status = VerdictStatus.conflict)) :
    v.status = VerdictStatus.error := by
  cases h : v.status
  · exact absurd (Or.inl h) hs
  · exact absurd (Or.inr h) hs
  · rfl

theorem removeSyncQueueItem_cons_ne (q0 : SyncQueueItem) (queue : List SyncQueueItem)
    (c : Nat) (h : q0.id ≠ c) :
    removeSyncQueueItem (q0 :: queue) c = q0 :: removeSyncQueueItem queue c := by
  simp [removeSyncQueueItem, List.filter_cons, h]

/-- A queue row whose id no verdict mentions survives the whole
interpretation loop untouched, at its place. -/
theorem applyProcessedItems_cons_of_not_mem (vs : List ProcessedItem)
    (queue : List SyncQueueItem) (q0 : SyncQueueItem)
    (h : ∀ v ∈ vs, v.client_id ≠ q0.id) :
    applyProcessedItems (q0 :: queue) vs =
      (q0 :: (applyProcessedItems queue vs).1, (applyProcessedItems queue vs).2) := by
  induction vs generalizing queue with
  | nil => rfl
  | cons v vs ih =>
    have hv : q0.id ≠ v.client_id := (h v (List.mem_cons_self v vs)).symm
    have hrest : ∀ w ∈ vs, w.client_id ≠ q0.id :=
      fun w hw => h w (List.mem_cons_of_mem v hw)
    by_cases hs : v.status = VerdictStatus.success ∨ v.status = VerdictStatus.conflict
    · simp only [applyProcessedItems, if_pos hs,
        removeSyncQueueItem_cons_ne q0 queue v.client_id hv, ih _ hrest]
    · simp only [applyProcessedItems, if_neg hs, ih _ hrest]

/-- The interpretation loop never invents or edits queue rows: its output is
a sublist of the input queue. -/
theorem applyProcessedItems_sublist (vs : List ProcessedItem)
    (queue : List SyncQueueItem) :
    (applyProcessedItems queue vs).1.Sublist queue := by
  induction vs generalizing queue with
  | nil => exact List.Sublist.refl queue
  | cons v vs ih =>
    by_cases hs : v.status = VerdictStatus.success ∨ v.status = VerdictStatus.conflict
    · simp only [applyProcessedItems, if_pos hs]
      exact (ih _).trans (List.filter_sublist queue)
    · simp only [applyProcessedItems, if_neg hs]
      exact ih _

/-- The tallies of the interpretation loop: synced counts the
`success`/`conflict` verdicts, failed counts the rest (exactly the `error`
verdicts). -/
theorem applyProcessedItems_counts (vs : List ProcessedItem)
    (queue : List SyncQueueItem) :
    (applyProcessedItems queue vs).2.1 =
      (vs.filter (fun v =>
        decide (v.status = VerdictStatus.success ∨ v.status = VerdictStatus.conflict))).length ∧
    (applyProcessedItems queue vs).2.2 =
      (vs.filter (fun v => decide (v.status = VerdictStatus.error))).length := by
  induction vs generalizing queue with
  | nil => simp [applyProcessedItems]
  | cons v vs ih =>
    by_cases hs : v.status = VerdictStatus.success ∨ v.status = VerdictStatus.conflict
    · have herr : ¬ v.status = VerdictStatus.error := by
        rcases hs with h | h <;> simp [h]
      simp [applyProcessedItems, hs, herr, List.filter_cons, (ih _).1, (ih _).2]
    · have herr := status_error_of_not_resolved v hs
      simp [applyProcessedItems, hs, herr, List.filter_cons, (ih _).1, (ih _).2]

/-- Exact characterization of the queue left by the interpretation loop when
the verdicts correlate positionally with the queue rows (same ids, in
order) and queue ids are unique: precisely the rows whose own verdict is
`error` survive, in order. -/
theorem applyProcessedItems_queue_eq (queue : List SyncQueueItem)
    (vs : List ProcessedItem)
    (hmap : vs.map (fun v => v.client_id) = queue.map (fun q => q.id))
    (hnodup : (queue.map (fun q => q.id)).Nodup) :
    (applyProcessedItems queue vs).1 =
      ((queue.zip vs).filter
        (fun p => decide (p.2.status = VerdictStatus.error))).map Prod.fst := by
  induction queue generalizing vs with
  | nil =>
    cases vs with
    | nil => rfl
    | cons v vs => simp at hmap
  | cons q0 qs ih =>
    cases vs with
    | nil => simp at hmap
    | cons v vs =>
      simp only [List.map_cons, List.cons.injEq] at hmap
      obtain ⟨hid, htl⟩ := hmap
      simp only [List.map_cons, List.nodup_cons] at hnodup
      obtain ⟨hnotin, hnd⟩ := hnodup
      have hmem : ∀ a ∈ qs, a.id ≠ q0.id :=
        fun a ha he => hnotin (he ▸ List.mem_map_of_mem (fun q => q.id) ha)
      by_cases hs : v.status = VerdictStatus.success ∨ v.status = VerdictStatus.conflict
      · have herr : ¬ v.status = VerdictStatus.error := by
          rcases hs with h | h <;> simp [h]
        have hq : removeSyncQueueItem (q0 :: qs) v.client_id = qs := by
          rw [hid]
          unfold removeSyncQueueItem
          rw [List.filter_cons]
          simp only [ne_eq, not_true_eq_false, decide_False, Bool.false_eq_true,
            if_false]
          exact List.filter_eq_self.mpr (fun a ha => by simp [hmem a ha])
        have hL : (applyProcessedItems (q0 :: qs) (v :: vs)).1 =
            (applyProcessedItems qs vs).1 := by
          simp only [applyProcessedItems, if_pos hs, hq]
        rw [hL, ih vs htl hnd, List.zip_cons_cons, List.filter_cons]
        simp [herr]
      · have herr := status_error_of_not_resolved v hs
        have hne : ∀ w ∈ vs, w.client_id ≠ q0.id := by
          intro w hw he
          exact hnotin (he ▸ (htl ▸ List.mem_map_of_mem (fun v => v.client_id) hw))
        have hL : (applyProcessedItems (q0 :: qs) (v :: vs)).1 =
            q0 :: (applyProcessedItems qs vs).1 := by
          simp only [applyProcessedItems, if_neg hs,
            applyProcessedItems_cons_of_not_mem vs qs q0 hne]
        rw [hL, ih vs htl hnd, List.zip_cons_cons, List.filter_cons]
        simp [herr]

/-- Unfolding of `sync` when the queue is non-empty and the transport
delivers a response. -/
theorem sync_ok_eq (queue : List SyncQueueItem) (now : Int)
    (transport : BatchSyncRequest → Except String BatchSyncResponse)
    (resp : BatchSyncResponse) (hne : queue ≠ [])
    (htr : transport (buildBatchRequest queue now) = Except.ok resp) :
    sync queue now transport =
      ({ success := decide ((applyProcessedItems queue resp.processed_items).2.2 = 0),
         synced_items := (applyProcessedItems queue resp.processed_items).2.1,
         failed_items := (applyProcessedItems queue resp.processed_items).2.2,
         errors := [] },
       (applyProcessedItems queue resp.processed_items).1,
       some (buildBatchRequest queue now)) := by
  cases queue with
  | nil => exact absurd rfl hne
  | cons q0 qs => simp [sync, getPendingSyncItems, htr]

/-! ## Client-side orchestration claims -/

/-- C3: after a `sync()` call that receives a structurally valid response
(one verdict per queue item, correlating by the queue item's id, queue ids
unique), exactly the items whose verdict is `success` or `conflict` are
removed from the queue and every `error`-verdicted item remains, in order. -/
theorem c3_queue_pruning (queue : List SyncQueueItem) (now : Int)
    (transport : BatchSyncRequest → Except String BatchSyncResponse)
    (resp : BatchSyncResponse)
    (htr : transport (buildBatchRequest queue now) = Except.ok resp)
    (hmap : resp.processed_items.map (fun v => v.client_id) = queue.map (fun q => q.id))
    (hnodup : (queue.map (fun q => q.id)).Nodup) :
    (sync queue now transport).2.1 =
      ((queue.zip resp.processed_items).filter
        (fun p => decide (p.2.status = VerdictStatus.error))).map Prod.fst := by
  cases hq : queue with
  | nil =>
    subst hq
    simp [sync, getPendingSyncItems]
  | cons q0 qs =>
    subst hq
    rw [sync_ok_eq (q0 :: qs) now transport resp (by simp) htr]
    exact applyProcessedItems_queue_eq (q0 :: qs) resp.processed_items hmap hnodup

/-- C3 witness: a three-item queue receiving success/error/conflict verdicts
keeps exactly the `error`-verdicted middle item. -/
theorem c3_queue_pruning_witness :
    c3transport (buildBatchRequest [c3q1, c3q2, c3q3] 9) = Except.ok c3resp ∧
    c3resp.processed_items.map (fun v => v.client_id)
      = [c3q1, c3q2, c3q3].map (fun q => q.id) ∧
    ([c3q1, c3q2, c3q3].map (fun q => q.id)).Nodup ∧
    (sync [c3q1, c3q2, c3q3] 9 c3transport).2.1 =
      (([c3q1, c3q2, c3q3].zip c3resp.processed_items).filter
        (fun p => decide (p.2.status = VerdictStatus.error))).map Prod.fst :=
  ⟨rfl, by decide, by decide,
   c3_queue_pruning [c3q1, c3q2, c3q3] 9 c3transport c3resp rfl (by decide) (by decide)⟩

/-- C4: when the transport-level batch POST throws, `sync()` removes no
queue item, leaves the queue exactly as it was, and returns `success =
false` with `failed_items` equal to the number of pending items sent. -/
theorem c4_transport_failure (queue : List SyncQueueItem) (now : Int)
    (transport : BatchSyncRequest → Except String BatchSyncResponse)
    (msg : String) (hne : queue ≠ [])
    (htr : transport (buildBatchRequest queue now) = Except.error msg) :
    sync queue now transport =
      ({ success := false, synced_items := 0, failed_items := queue.length,
         errors := [{ task_id := "N/A", operation := "sync",
                      error := "Network or Server Error", timestamp := now }] },
       queue, some (buildBatchRequest queue now)) := by
  cases queue with
  | nil => exact absurd rfl hne
  | cons q0 qs => simp [sync, getPendingSyncItems, htr]

/-- C4 witness: a two-item queue and a throwing transport leave the queue
untouched and report two failures. -/
theorem c4_transport_failure_witness :
    ([c3q1, c3q2] : List SyncQueueItem) ≠ [] ∧
    c4transport (buildBatchRequest [c3q1, c3q2] 9) = Except.error "ECONNREFUSED" ∧
    sync [c3q1, c3q2] 9 c4transport =
      ({ success := false, synced_items := 0, failed_items := [c3q1, c3q2].length,
         errors := [{ task_id := "N/A", operation := "sync",
                      error := "Network or Server Error", timestamp := 9 }] },
       [c3q1, c3q2], some (buildBatchRequest [c3q1, c3q2] 9)) :=
  ⟨by decide, rfl,
   c4_transport_failure [c3q1, c3q2] 9 c4transport "ECONNREFUSED" (by decide) rfl⟩

/-- C10: a queue item whose verdict is `error` is left entirely unmodified
by `sync()`: the surviving queue is a sublist of the original (no row is
edited — in particular neither `retry_count` nor `error_message` changes),
the item itself survives, and the error only shows up in the `failed_items`
tally, which equals the number of `error` verdicts. -/
theorem c10_error_leaves_item_untouched (queue : List SyncQueueItem) (now : Int)
    (transport : BatchSyncRequest → Except String BatchSyncResponse)
    (resp : BatchSyncResponse) (q : SyncQueueItem) (v : ProcessedItem)
    (htr : transport (buildBatchRequest queue now) = Except.ok resp)
    (hmap : resp.processed_items.map (fun w => w.client_id) = queue.map (fun r => r.id))
    (hnodup : (queue.map (fun r => r.id)).Nodup)
    (hqv : (q, v) ∈ queue.zip resp.processed_items)
    (herr : v.status = VerdictStatus.error) :
    q ∈ (sync queue now transport).2.1 ∧
    (sync queue now transport).2.1.Sublist queue ∧
    (sync queue now transport).1.failed_items =
      (resp.processed_items.filter
        (fun w => decide (w.status = VerdictStatus.error))).length := by
  have hne : queue ≠ [] := by
    intro h
    subst h
    simp at hqv
  rw [sync_ok_eq queue now transport resp hne htr]
  refine ⟨?_, applyProcessedItems_sublist resp.processed_items queue,
    (applyProcessedItems_counts resp.processed_items queue).2⟩
  rw [applyProcessedItems_queue_eq queue resp.processed_items hmap hnodup]
  exact List.mem_map_of_mem Prod.fst
    (List.mem_filter.mpr ⟨hqv, by simp [herr]⟩)

/-- C10 witness: the middle item of the three-item scenario gets an `error`
verdict, survives unmodified, and is the only failure counted. -/
theorem c10_error_leaves_item_untouched_witness :
    (c3q2, c3v2) ∈ [c3q1, c3q2, c3q3].zip c3resp.processed_items ∧
    (c3q2 ∈ (sync [c3q1, c3q2, c3q3] 9 c3transport).2.1 ∧
     (sync [c3q1, c3q2, c3q3] 9 c3transport).2.1.Sublist [c3q1, c3q2, c3q3] ∧
     (sync [c3q1, c3q2, c3q3] 9 c3transport).1.failed_items =
       (c3resp.processed_items.filter
         (fun w => decide (w.status = VerdictStatus.error))).length) :=
  ⟨by decide,
   c10_error_leaves_item_untouched [c3q1, c3q2, c3q3] 9 c3transport c3resp c3q2
     c3v2 rfl (by decide) (by decide) (by decide) rfl⟩

/-- C5 evaluation: `handleBatchSync` does return one verdict per item in
order, but the verdict's `client_id` is the item's `task_id`, not the queue
item's own client-assigned id — here the queue item has id 1 and task_id 2
and the verdict carries 2, so the client cannot correlate it with the queue
entry (whose removal key is the queue item id). -/
theorem c5_client_id_is_task_id :
    (handleBatchSync { tasks := [] } 10
        { items := [c5item], client_timestamp := 0 }).1.processed_items =
      [{ client_id := c5item.task_id, server_id := c5item.task_id,
         status := VerdictStatus.success }] ∧
    c5item.id = 1 ∧ c5item.task_id = 2 ∧ c5item.task_id ≠ c5item.id := by
  refine ⟨rfl, rfl, rfl, by decide⟩

/-- C8 counterexample: a fully successful sync at time 3 returns
`server_timestamp = 5`; the next `sync()` call at time 7 nevertheless sends
`client_timestamp = 7` — the call-time clock — and not the high-water mark 5
of the previous successful response (the client stores no such mark). -/
theorem c8_counterexample_sends_clock_not_mark :
    (sync [c8item1] 3 c8transport).1.success = true ∧
    c8resp.server_timestamp = 5 ∧
    (sync [c8item2] 7 c8transport).2.2 =
      some { items := [c8item2], client_timestamp := 7 } ∧
    (7 : Int) ≠ 5 := by
  refine ⟨by decide, rfl, by decide, by decide⟩

/-- C8 (amended): whenever the pending queue is non-empty, `sync()` sends
the current call-time clock value as the request's `client_timestamp`. -/
theorem c8_amended_client_timestamp_is_clock (queue : List SyncQueueItem)
    (now : Int)
    (transport : BatchSyncRequest → Except String BatchSyncResponse)
    (hne : queue ≠ []) :
    (sync queue now transport).2.2 =
      some { items := queue, client_timestamp := now } := by
  cases queue with
  | nil => exact absurd rfl hne
  | cons q0 qs =>
    cases h : transport (buildBatchRequest (q0 :: qs) now) with
    | ok resp =>
      rw [sync_ok_eq (q0 :: qs) now transport resp (by simp) h]
      simp [buildBatchRequest]
    | error e =>
      simp only [buildBatchRequest] at h
      simp [sync, getPendingSyncItems, buildBatchRequest, h]

/-- C8 amended witness: the theorem applies at a concrete non-empty queue. -/
theorem c8_amended_client_timestamp_is_clock_witness :
    ([c8item2] : List SyncQueueItem) ≠ [] ∧
    (sync [c8item2] 7 c8transport).2.2 =
      some { items := [c8item2], client_timestamp := 7 } :=
  ⟨by decide,
   c8_amended_client_timestamp_is_clock [c8item2] 7 c8transport (by decide)⟩

end TaskSync
